import Mathlib

/-!
A shallow embedding of the control loop of `src/Liam/Liam.ino` (Liam DIY robot
lawn mower).  Each state handler (`doMowing`, `doLaunching`, `doDocking`,
`doLookForBWF`, `doCharging`), the safety checks (`checkIfFlipped`,
`checkIfLifted`), `randomTurn`, `setup` and `loop` are translated statement by
statement into pure functions on an explicit global state.

Modelling conventions:
* `millis()` is an explicit `now : Nat` parameter; only the sketch's own
  `delay(d)` calls advance it (collaborator calls are treated as atomic).
* Every call into a collaborator (CONTROLLER `Mower`, BATTERY `Battery`,
  BWFSENSOR `Sensor`, ERROR `Error`, the display, the compass) is recorded as
  an `Act` in an emitted trace, in source order.
* Collaborator return values (battery flags, sensor classifications, wheel
  overload, turn error codes, random numbers) are supplied by an environment
  `Env` of time-indexed functions, since their implementations live outside
  the two source files of the repository.
* Conditional compilation (`#if defined ...`) is modelled by boolean fields of
  `Config`; note that `Liam.ino` line 116 guards the Clock object with
  `__RTC_CLOCK__` while line 428 guards its use with `__RTC__CLOCK__` (two
  distinct macros), so the two get two distinct fields.
-/

namespace Liam

/-- The mower states of `Liam.ino` (values of the global `int state`,
named in `Definition.h`): `IDLE`, `MOWING`, `LAUNCHING`, `DOCKING`,
`LOOKING_FOR_BWF`, `CHARGING`, `SETUP_DEBUG`. -/
inductive MowerState where
  | IDLE
  | MOWING
  | LAUNCHING
  | DOCKING
  | LOOKING_FOR_BWF
  | CHARGING
  | SETUP_DEBUG
deriving Repr, DecidableEq

/-- Modelled from the spec: `ORIENTATION` is declared in `Definition.h`, which
is not among the source files.  The spec's coil diagram and `doMowing`
(`i == ORIENTATION::LEFT` pairs with `turnToReleaseRight`) fix the left coil
as index 0 of the two-element `sensorOutside` array. -/
def ORIENTATION_LEFT : Nat := 0

/-- Modelled from the spec: the right coil is index 1 of `sensorOutside`
(see `ORIENTATION_LEFT`). -/
def ORIENTATION_RIGHT : Nat := 1

/-- One observable collaborator call made by the sketch, in source order.
`stop` is `Mower.stop()` (stops both wheel motors), `stopCutter` is
`Mower.stopCutter()`, `errorFlag c` is `Error.flag(c)`, `delayMs d` is
`delay(d)`, and so on.  Serial prints are not recorded. -/
inductive Act where
  | cutterInit
  | serialBegin
  | definePinsInputOutput
  | setDefaultLevels
  | displayInit
  | batteryResetVoltage
  | compassInit
  | attachInterruptBWF
  | displayClear
  | displayPrint
  | tryEnterSetupDebug
  | sensorSelect (i : Nat)
  | readIsOutOfBounds (i : Nat) (result : Bool)
  | batteryUpdateVoltage
  | displayUpdate
  | stop
  | stopCutter
  | startCutter
  | runForward (speed : Nat)
  | runBackward (speed : Nat)
  | runForwardOverTime (startSpeed endSpeed duration : Nat)
  | turnLeft (angle : Nat)
  | turnRight (angle : Nat)
  | turnToReleaseLeft (angle : Nat)
  | turnToReleaseRight (angle : Nat)
  | goBackwardUntilInside
  | turnIfObstacle
  | adjustMotorSpeeds
  | compensateSpeedToCutterLoad
  | compensateSpeedToCompassHeading
  | updateHeading
  | setNewTargetHeading
  | mowerRandomTurn
  | errorFlag (code : Nat)
  | delayMs (d : Nat)
deriving Repr, DecidableEq

/-- Compile-time configuration of the sketch: which `#if defined` blocks are
compiled in, and the numeric defaults of `Definition.h` (not in the source
files, hence kept abstract). -/
structure Config where
  /-- `DEBUG_ENABLED` is defined (lines 64, 104, 160, 165). -/
  debugEnabled : Bool
  /-- Line 203: `#if defined __MS9150__ || defined __MS5883L__ || __ADXL345__`
  guarding the body of `checkIfFlipped`. -/
  tiltCheckCompiled : Bool
  /-- Line 214: `#if defined __Lift_Sensor__` guarding the body of
  `checkIfLifted`. -/
  liftCheckCompiled : Bool
  /-- Line 116: `#if defined __RTC_CLOCK__` — the macro guarding construction
  of the `CLOCK Clock` collaborator. -/
  RTC_CLOCK_defined : Bool
  /-- Line 428: `#if defined __RTC__CLOCK__` — the (differently spelled) macro
  guarding the `&& Clock.timeToCut()` conjunct inside `doCharging`. -/
  RTC__CLOCK_defined : Bool
  FULLSPEED : Nat
  SLOWSPEED : Nat
  TURN_INTERVAL : Nat
  ACCELERATION_DURATION : Nat
  ERROR_TILT : Nat
  ERROR_LIFT : Nat
deriving Repr, DecidableEq

/-- The environment: results returned by collaborator calls, indexed by the
`millis()` time at which the call is made.  These implementations live in
libraries outside the two source files, so they are left abstract. -/
structure Env where
  /-- `SetupAndDebug.tryEnterSetupDebugMode(s)` called at time `t`. -/
  debugResult : Nat → MowerState → MowerState
  /-- `Sensor.isOutOfBounds()` at time `t` with coil `i` selected. -/
  isOutOfBounds : Nat → Nat → Bool
  /-- `Battery.mustCharge()` at time `t`. -/
  mustCharge : Nat → Bool
  /-- `Battery.isBeingCharged()` at time `t`. -/
  isBeingCharged : Nat → Bool
  /-- `Battery.isFullyCharged()` at time `t`. -/
  isFullyCharged : Nat → Bool
  /-- `Clock.timeToCut()` at time `t`. -/
  timeToCut : Nat → Bool
  /-- `Mower.wheelsAreOverloaded()` at time `t`. -/
  wheelsAreOverloaded : Nat → Bool
  /-- `Mower.hasFlipped()` at time `t`. -/
  hasFlipped : Nat → Bool
  /-- `Mower.isLifted()` at time `t`. -/
  isLifted : Nat → Bool
  /-- Error code returned by `Mower.GoBackwardUntilInside(&Sensor)` at `t`
  (0 = success). -/
  goBackErr : Nat → Nat
  /-- Error code returned by `Mower.turnToReleaseLeft/Right(30)` at `t`
  (0 = success). -/
  releaseErr : Nat → Nat
  /-- `random(90, 160)` drawn at time `t`. -/
  randAngle : Nat → Nat
  /-- Whether `random(0, 100) % 2 == 0` at time `t`. -/
  randEven : Nat → Bool
  /-- `Sensor.isInside()` at time `t`. -/
  sensorIsInside : Nat → Bool
  /-- `Sensor.isOutside()` at time `t`. -/
  sensorIsOutside : Nat → Bool

/-- The sketch's global mutable variables (`Liam.ino` lines 69-71), together
with the function-`static` locals of `doDocking` (line 312-315), `doCharging`
(line 407) and `loop` (line 443), which persist across calls exactly like
globals. -/
structure Globals where
  /-- `int state` (line 69). -/
  state : MowerState
  /-- `long time_at_turning` (line 70), shared by `randomTurn`, `doMowing`
  and `doLookForBWF`. -/
  time_at_turning : Nat
  /-- `sensorOutside[0]` (left coil), written by `loop`. -/
  sensorOutsideLeft : Bool
  /-- `sensorOutside[1]` (right coil), written by `loop`. -/
  sensorOutsideRight : Bool
  /-- `static int collisionCount` of `doDocking`. -/
  collisionCount : Nat
  /-- `static long lastCollision` of `doDocking`. -/
  lastCollision : Nat
  /-- `static long lastAllOutsideCheck` of `doDocking`. -/
  lastAllOutsideCheck : Nat
  /-- `static long lastOutside` of `doDocking`. -/
  lastOutside : Nat
  /-- `static long lastContact` of `doCharging`. -/
  lastContact : Nat
  /-- `static long lastDisplayUpdate` of `loop`. -/
  lastDisplayUpdate : Nat
deriving Repr, DecidableEq

/-- `sensorOutside[i]` as read by the handlers. -/
def Globals.sensorOutside (g : Globals) (i : Nat) : Bool :=
  if i = ORIENTATION_LEFT then g.sensorOutsideLeft else g.sensorOutsideRight

/-- `randomTurn(goBack)` (`Liam.ino` lines 183-198): optional 2s full-speed
reverse, a random left or right turn of 90-160 degrees, record the turn time
in `time_at_turning`, capture a new target heading, run forward. -/
def randomTurn (cfg : Config) (env : Env) (g : Globals) (now : Nat)
    (goBack : Bool) : Globals × Nat × List Act :=
  let (now, acts) :=
    if goBack then
      (now + 2000, [Act.runBackward cfg.FULLSPEED, Act.delayMs 2000])
    else (now, [])
  let angle := env.randAngle now
  let turnAct := if env.randEven now then Act.turnRight angle else Act.turnLeft angle
  ({ g with time_at_turning := now }, now,
    acts ++ [turnAct, Act.setNewTargetHeading, Act.runForward cfg.FULLSPEED])

/-- `checkIfFlipped()` (lines 202-211): when a tilt-capable motion sensor is
compiled in and `Mower.hasFlipped()`, stop the cutter, stop both wheel motors
and flag `ERROR_TILT`. -/
def checkIfFlipped (cfg : Config) (env : Env) (g : Globals) (now : Nat) :
    Globals × Nat × List Act :=
  if cfg.tiltCheckCompiled && env.hasFlipped now then
    (g, now, [Act.stopCutter, Act.stop, Act.errorFlag cfg.ERROR_TILT])
  else (g, now, [])

/-- `checkIfLifted()` (lines 213-226): when the lift sensor is compiled in and
`Mower.isLifted()`, stop cutter and motors, back off for 2s, flag
`ERROR_LIFT` only if still lifted, then do a (controller) random turn. -/
def checkIfLifted (cfg : Config) (env : Env) (g : Globals) (now : Nat) :
    Globals × Nat × List Act :=
  if cfg.liftCheckCompiled && env.isLifted now then
    let now' := now + 2000
    let acts := [Act.stopCutter, Act.stop, Act.runBackward cfg.FULLSPEED,
      Act.delayMs 2000]
    let acts := acts ++ (if env.isLifted now' then [Act.errorFlag cfg.ERROR_LIFT] else [])
    (g, now', acts ++ [Act.mowerRandomTurn])
  else (g, now, [])

/-- Body of `doMowing`'s per-coil loop (lines 241-280) for coil `i`: if that
coil's snapshot is outside, select it, stop, back up until inside (flagging a
failure), attempt a release turn away from the wire with one
reverse-and-retry, flag persistent failure, then reset the turn timer and
target heading. -/
def mowingCoilStep (cfg : Config) (env : Env) (g : Globals) (now : Nat)
    (i : Nat) : Globals × Nat × List Act :=
  if !(g.sensorOutside i) then (g, now, [])
  else
    let e1 := env.goBackErr now
    let acts := [Act.sensorSelect i, Act.stop, Act.goBackwardUntilInside]
      ++ (if e1 ≠ 0 then [Act.errorFlag e1] else [])
    let relAct := if i = ORIENTATION_LEFT then Act.turnToReleaseRight 30
      else Act.turnToReleaseLeft 30
    let e2 := env.releaseErr now
    let (now, acts) :=
      if e2 ≠ 0 then
        let now' := now + 1000
        let e3 := env.releaseErr now'
        (now', acts ++ [relAct, Act.runBackward cfg.FULLSPEED, Act.delayMs 1000,
          Act.stop, relAct] ++ (if e3 ≠ 0 then [Act.errorFlag e3] else []))
      else (now, acts ++ [relAct])
    ({ g with time_at_turning := now }, now, acts ++ [Act.setNewTargetHeading])

/-- `doMowing()` (lines 230-295): leave for `LOOKING_FOR_BWF` when the battery
must charge; otherwise periodic random turn, per-coil boundary escape,
obstacle avoidance, cutter on, ramped forward drive and the two speed
compensations. -/
def doMowing (cfg : Config) (env : Env) (g : Globals) (now : Nat) :
    Globals × Nat × List Act :=
  if env.mustCharge now then
    ({ g with state := MowerState.LOOKING_FOR_BWF }, now, [])
  else
    let (g, now, a0) :=
      if now - g.time_at_turning > cfg.TURN_INTERVAL then
        randomTurn cfg env g now true
      else (g, now, [])
    let (g, now, a1) := mowingCoilStep cfg env g now 0
    let (g, now, a2) := mowingCoilStep cfg env g now 1
    (g, now, a0 ++ a1 ++ a2 ++ [Act.turnIfObstacle, Act.startCutter,
      Act.runForwardOverTime cfg.SLOWSPEED cfg.FULLSPEED cfg.ACCELERATION_DURATION,
      Act.compensateSpeedToCutterLoad, Act.updateHeading,
      Act.compensateSpeedToCompassHeading])

/-- `doLaunching()` (lines 298-308): back out of the charger for 5s, stop,
random turn, reset the battery voltage baseline, go to `MOWING`. -/
def doLaunching (cfg : Config) (env : Env) (g : Globals) (now : Nat) :
    Globals × Nat × List Act :=
  let now' := now + 5000
  let (g, now'', aTurn) := randomTurn cfg env g now' false
  ({ g with state := MowerState.MOWING }, now'',
    [Act.runBackward cfg.FULLSPEED, Act.delayMs 5000, Act.stop] ++ aTurn
      ++ [Act.batteryResetVoltage])

/-- Tail of `doDocking` after the collision block (lines 361-386): the
periodic (500ms) right-sensor correction turn, the 10s loss of the
left-outside signal sending the mower back to `LOOKING_FOR_BWF`, and
otherwise boundary tracking via `adjustMotorSpeeds` on the left coil. -/
def dockingTail (cfg : Config) (_env : Env) (g : Globals) (now : Nat)
    (acts : List Act) : Globals × Nat × List Act :=
  let (g, now, acts) :=
    if now - g.lastAllOutsideCheck > 500 then
      let (now', aa) :=
        if g.sensorOutside ORIENTATION_RIGHT then
          (now + 700, [Act.stop, Act.runBackward cfg.FULLSPEED, Act.delayMs 700,
            Act.stop, Act.turnRight 20, Act.stop, Act.runForward cfg.FULLSPEED])
        else (now, [])
      ({ g with lastAllOutsideCheck := now' }, now', acts ++ aa)
    else (g, now, acts)
  if now - g.lastOutside > 10000 then
    ({ g with state := MowerState.LOOKING_FOR_BWF }, now,
      acts ++ [Act.stop, Act.turnLeft 30])
  else
    (g, now, acts ++ [Act.sensorSelect ORIENTATION_LEFT, Act.adjustMotorSpeeds])

/-- `doDocking()` (lines 311-386): cutter off; refresh `lastOutside` while the
left coil is outside; hand over to `CHARGING` as soon as the battery reports
charging; on a wheel collision, count it (resetting the count after a quiet
10s gap), wait 1s re-checking for charger contact, nudge back 1.3s, and on the
third collision in the window escape around the obstacle (right turn, counter
reset, forward); otherwise run the docking tail (`dockingTail`). -/
def doDocking (cfg : Config) (env : Env) (g : Globals) (now : Nat) :
    Globals × Nat × List Act :=
  let g := if g.sensorOutside ORIENTATION_LEFT then { g with lastOutside := now } else g
  if env.isBeingCharged now then
    ({ g with state := MowerState.CHARGING }, now, [Act.stopCutter, Act.stop])
  else if env.wheelsAreOverloaded now then
    let g := if now - g.lastCollision > 10000 then { g with collisionCount := 0 } else g
    let g := { g with collisionCount := g.collisionCount + 1, lastCollision := now }
    let now₁ := now + 1000
    if env.isBeingCharged now₁ then
      ({ g with state := MowerState.CHARGING }, now₁,
        [Act.stopCutter, Act.delayMs 1000, Act.stop])
    else
      let now₂ := now₁ + 1300
      let acts := [Act.stopCutter, Act.delayMs 1000,
        Act.runBackward cfg.FULLSPEED, Act.delayMs 1300]
      if g.collisionCount = 3 then
        ({ g with collisionCount := 0, lastOutside := now₂ }, now₂,
          acts ++ [Act.turnRight 70, Act.stop, Act.runForward cfg.FULLSPEED])
      else
        dockingTail cfg env g now₂ acts
  else
    dockingTail cfg env g now [Act.stopCutter]

/-- `doLookForBWF()` (lines 388-403): cutter off; if the left coil's snapshot
is outside the wire has been found, go to `DOCKING`; otherwise periodic random
turn, ramped forward drive and obstacle avoidance. -/
def doLookForBWF (cfg : Config) (env : Env) (g : Globals) (now : Nat) :
    Globals × Nat × List Act :=
  if g.sensorOutside ORIENTATION_LEFT then
    ({ g with state := MowerState.DOCKING }, now, [Act.stopCutter])
  else
    let (g, now, aTurn) :=
      if now - g.time_at_turning > cfg.TURN_INTERVAL then
        randomTurn cfg env g now true
      else (g, now, [])
    (g, now, [Act.stopCutter] ++ aTurn
      ++ [Act.runForwardOverTime cfg.SLOWSPEED cfg.FULLSPEED cfg.ACCELERATION_DURATION,
        Act.turnIfObstacle])

/-- `doCharging()` (lines 406-438): motors and cutter stopped every cycle;
`lastContact` refreshed while charging; after 20s without contact a short
reverse/forward re-dock nudge (which resets `lastContact` whether or not
contact was made); launch when the battery is fully charged — with
`Clock.timeToCut()` consulted only under `#if defined __RTC__CLOCK__`
(line 428) — and a boundary signal is present. -/
def doCharging (cfg : Config) (env : Env) (g : Globals) (now : Nat) :
    Globals × Nat × List Act :=
  let g := if env.isBeingCharged now then { g with lastContact := now } else g
  let (g, now, acts) :=
    if now - g.lastContact > 20000 then
      let now' := now + 500 + 2000
      ({ g with lastContact := now' }, now',
        [Act.stop, Act.stopCutter, Act.runBackward cfg.SLOWSPEED, Act.delayMs 500,
          Act.runForward cfg.SLOWSPEED, Act.delayMs 2000, Act.stop])
    else (g, now, [Act.stop, Act.stopCutter])
  if (if cfg.RTC__CLOCK_defined then
        env.isFullyCharged now && env.timeToCut now
      else env.isFullyCharged now) then
    if env.sensorIsInside now || env.sensorIsOutside now then
      ({ g with state := MowerState.LAUNCHING }, now, acts)
    else (g, now, acts)
  else (g, now, acts)

/-- The `switch(state)` state dispatch of `loop` (lines 464-483).  `IDLE`
just delays 100ms; `SETUP_DEBUG` has no case and falls through doing
nothing. -/
def dispatchState (cfg : Config) (env : Env) (g : Globals) (now : Nat) :
    Globals × Nat × List Act :=
  match g.state with
  | MowerState.IDLE => (g, now + 100, [Act.delayMs 100])
  | MowerState.MOWING => doMowing cfg env g now
  | MowerState.LAUNCHING => doLaunching cfg env g now
  | MowerState.DOCKING => doDocking cfg env g now
  | MowerState.LOOKING_FOR_BWF => doLookForBWF cfg env g now
  | MowerState.CHARGING => doCharging cfg env g now
  | MowerState.SETUP_DEBUG => (g, now, [])

/-- The sensor-polling / battery / display phase of `loop` (lines 447-458):
select each coil in turn and snapshot `Sensor.isOutOfBounds()` into
`sensorOutside[i]`, update the battery voltage, and refresh the display if
more than 5s have passed. -/
def pollPhase (env : Env) (g : Globals) (now : Nat) :
    Globals × Nat × List Act :=
  let s0 := env.isOutOfBounds now 0
  let s1 := env.isOutOfBounds now 1
  let g := { g with sensorOutsideLeft := s0, sensorOutsideRight := s1 }
  let acts := [Act.sensorSelect 0, Act.readIsOutOfBounds 0 s0,
    Act.sensorSelect 1, Act.readIsOutOfBounds 1 s1, Act.batteryUpdateVoltage]
  if now - g.lastDisplayUpdate > 5000 then
    ({ g with lastDisplayUpdate := now }, now, acts ++ [Act.displayUpdate])
  else (g, now, acts)

/-- One iteration of `loop()` (lines 442-487): try the setup/debug console
first and return at once when it reports `SETUP_DEBUG`; otherwise poll the
boundary sensors and battery, maybe refresh the display, run both safety
checks, and dispatch on the state. -/
def loopCycle (cfg : Config) (env : Env) (g : Globals) (now : Nat) :
    Globals × Nat × List Act :=
  let st := env.debugResult now g.state
  let g := { g with state := st }
  if st = MowerState.SETUP_DEBUG then
    (g, now, [Act.tryEnterSetupDebug])
  else
    let (g, now, aPoll) := pollPhase env g now
    let (g, now, aFlip) := checkIfFlipped cfg env g now
    let (g, now, aLift) := checkIfLifted cfg env g now
    let (g, now, aState) := dispatchState cfg env g now
    (g, now, [Act.tryEnterSetupDebug] ++ aPoll ++ aFlip ++ aLift ++ aState)

/-- The initial values of the globals and statics: `state` is a default-zero
`int` (`IDLE`), `time_at_turning = millis()` at static-init time, and every
`static long` timer starts at 0. -/
def initialGlobals : Globals :=
  { state := MowerState.IDLE
    time_at_turning := 0
    sensorOutsideLeft := false
    sensorOutsideRight := false
    collisionCount := 0
    lastCollision := 0
    lastAllOutsideCheck := 0
    lastOutside := 0
    lastContact := 0
    lastDisplayUpdate := 0 }

/-- `setup()` (lines 130-179): `CutterMotor.initialize()` first of all, then
serial, pin configuration, default levels, display, battery baseline, compass,
the BWF interrupt, left-coil selection, the version splash and the 5s pause;
with `DEBUG_ENABLED` a chance to enter `SETUP_DEBUG`; finally the initial
state is `CHARGING` (cutter stopped) if docked, else `MOWING`. -/
def setup (cfg : Config) (env : Env) : Globals × Nat × List Act :=
  let acts := [Act.cutterInit, Act.serialBegin, Act.definePinsInputOutput,
    Act.setDefaultLevels, Act.displayInit, Act.batteryResetVoltage,
    Act.compassInit, Act.attachInterruptBWF, Act.sensorSelect ORIENTATION_LEFT,
    Act.displayClear, Act.displayPrint, Act.delayMs 5000]
  let now := 5000
  let st := if cfg.debugEnabled then env.debugResult now MowerState.IDLE
    else MowerState.IDLE
  let acts := acts ++ (if cfg.debugEnabled then [Act.tryEnterSetupDebug] else [])
    ++ [Act.displayClear]
  let g := { initialGlobals with state := st }
  if st ≠ MowerState.SETUP_DEBUG then
    if env.isBeingCharged now then
      ({ g with state := MowerState.CHARGING }, now, acts ++ [Act.stopCutter])
    else
      ({ g with state := MowerState.MOWING }, now, acts)
  else (g, now, acts)

/-- The acts that command the motors or the cutter or flag an error — the
"actions" of the safety claims, as opposed to sensor polling, display,
battery-voltage and timing bookkeeping. -/
def isCommandAct : Act → Bool
  | Act.stop => true
  | Act.stopCutter => true
  | Act.startCutter => true
  | Act.runForward _ => true
  | Act.runBackward _ => true
  | Act.runForwardOverTime _ _ _ => true
  | Act.turnLeft _ => true
  | Act.turnRight _ => true
  | Act.turnToReleaseLeft _ => true
  | Act.turnToReleaseRight _ => true
  | Act.goBackwardUntilInside => true
  | Act.turnIfObstacle => true
  | Act.adjustMotorSpeeds => true
  | Act.compensateSpeedToCutterLoad => true
  | Act.compensateSpeedToCompassHeading => true
  | Act.mowerRandomTurn => true
  | Act.errorFlag _ => true
  | _ => false

/-- The acts that command forward motion of the wheels (the "forward motion
commands" of the spec's scenarios): a forward run, a ramped forward run, a
turn (every turn primitive re-launches forward travel in this sketch's use),
or obstacle avoidance. -/
def isForwardMotionAct : Act → Bool
  | Act.runForward _ => true
  | Act.runForwardOverTime _ _ _ => true
  | Act.turnLeft _ => true
  | Act.turnRight _ => true
  | Act.turnToReleaseLeft _ => true
  | Act.turnToReleaseRight _ => true
  | Act.turnIfObstacle => true
  | Act.adjustMotorSpeeds => true
  | Act.mowerRandomTurn => true
  | _ => false

/-! Concrete fixtures used by the witness theorems.  `Definition.h` is not in
the source files, so the numeric defaults below are arbitrary sample values;
none of the general theorems depend on them. -/

/-- A sample compile-time configuration: debug console and tilt check
compiled in, lift sensor and both RTC macros absent. -/
def cfg0 : Config :=
  { debugEnabled := true
    tiltCheckCompiled := true
    liftCheckCompiled := false
    RTC_CLOCK_defined := false
    RTC__CLOCK_defined := false
    FULLSPEED := 100
    SLOWSPEED := 50
    TURN_INTERVAL := 20000
    ACCELERATION_DURATION := 1000
    ERROR_TILT := 1
    ERROR_LIFT := 2 }

/-- A quiescent sample environment: the debug console leaves the state alone,
every sensor reads inside/false, every maneuver succeeds. -/
def env0 : Env :=
  { debugResult := fun _ s => s
    isOutOfBounds := fun _ _ => false
    mustCharge := fun _ => false
    isBeingCharged := fun _ => false
    isFullyCharged := fun _ => false
    timeToCut := fun _ => false
    wheelsAreOverloaded := fun _ => false
    hasFlipped := fun _ => false
    isLifted := fun _ => false
    goBackErr := fun _ => 0
    releaseErr := fun _ => 0
    randAngle := fun _ => 120
    randEven := fun _ => true
    sensorIsInside := fun _ => false
    sensorIsOutside := fun _ => false }

/-- The environment of the C4 witness: the wheels are overloaded and charger
contact appears exactly at time 9000 — the 1s re-check of a collision that
happens at time 8000. -/
def envC4 : Env :=
  { env0 with
    wheelsAreOverloaded := fun _ => true
    isBeingCharged := fun t => decide (t = 9000) }

/-- The globals of the C4 witness: docking with two pending collisions. -/
def gC4 : Globals :=
  { initialGlobals with
    state := MowerState.DOCKING
    collisionCount := 2
    lastCollision := 7500 }

/-- A docking environment with a persistent obstacle: the wheels are
overloaded and the charger is never reached. -/
def envDock : Env := { env0 with wheelsAreOverloaded := fun _ => true }

/-- Docking globals for the collision witnesses: two pending collisions, the
last one 2s ago. -/
def gDock : Globals :=
  { initialGlobals with
    state := MowerState.DOCKING
    collisionCount := 2
    lastCollision := 6000 }

/-- The environment of the C2 counterexample: the battery must charge. -/
def envC2 : Env := { env0 with mustCharge := fun _ => true }

/-- The globals of the C2 counterexample: currently mowing. -/
def gC2 : Globals := { initialGlobals with state := MowerState.MOWING }

/-- The configuration of the C6 failing input: the scheduling-clock
collaborator is present (`__RTC_CLOCK__` defined, so the `CLOCK Clock` object
of line 117 is constructed) while the differently spelled `__RTC__CLOCK__` of
line 428 is not defined — which is the case in any build that defines only
the macro the Clock object itself is guarded by. -/
def cfgC6 : Config := { cfg0 with RTC_CLOCK_defined := true }

/-- The environment of the C6 failing input: docked and charging, battery
fully charged, boundary signal present, but the clock says it is not time to
cut (`timeToCut()` is false at every time). -/
def envC6 : Env :=
  { env0 with
    isBeingCharged := fun _ => true
    isFullyCharged := fun _ => true
    sensorIsInside := fun _ => true }

/-- The globals of the C6 failing input: charging. -/
def gC6 : Globals := { initialGlobals with state := MowerState.CHARGING }

/-- Globals for the C8 counterexample: mowing, with the turn timer carrying
the value 32000 written by an earlier `randomTurn`. -/
def gMowCarried : Globals := { gC2 with time_at_turning := 32000 }

/-- Globals for the C8 counterexample: looking for the boundary wire with the
turn timer still holding the value 32000 written while mowing. -/
def gLfbCarried : Globals :=
  { initialGlobals with
    state := MowerState.LOOKING_FOR_BWF
    time_at_turning := 32000 }

/-- Globals for the C8 counterexample: looking for the boundary wire with the
turn timer holding a stale 0. -/
def gLfbStale : Globals :=
  { initialGlobals with state := MowerState.LOOKING_FOR_BWF }

/-! Helper lemmas about the phases of `loop` and about `dockingTail`, shared
by the claim proofs. -/

/-- The docking tail never touches the collision counter. -/
lemma dockingTail_collisionCount (cfg : Config) (env : Env) (g : Globals)
    (now : Nat) (acts : List Act) :
    (dockingTail cfg env g now acts).1.collisionCount = g.collisionCount := by
  simp only [dockingTail]
  split_ifs <;> rfl

/-- The docking tail never touches the global turn timer. -/
lemma dockingTail_time_at_turning (cfg : Config) (env : Env) (g : Globals)
    (now : Nat) (acts : List Act) :
    (dockingTail cfg env g now acts).1.time_at_turning = g.time_at_turning := by
  simp only [dockingTail]
  split_ifs <;> rfl

/-- Characterization of `doDocking` on a collision with no charger contact:
the counter is first reset if the quiet gap exceeds 10s, then incremented;
a resulting count of 3 takes the escape branch, any other count falls
through to the docking tail after the nudge back. -/
lemma doDocking_collision_eq (cfg : Config) (env : Env) (g : Globals)
    (now : Nat)
    (hc1 : env.isBeingCharged now = false)
    (hov : env.wheelsAreOverloaded now = true)
    (hc2 : env.isBeingCharged (now + 1000) = false) :
    doDocking cfg env g now =
      (let gl := if g.sensorOutside ORIENTATION_LEFT then
          { g with lastOutside := now } else g
       let c := if now - g.lastCollision > 10000 then 0 else g.collisionCount
       let g1 := { gl with collisionCount := c + 1, lastCollision := now }
       if c + 1 = 3 then
         ({ g1 with collisionCount := 0, lastOutside := now + 1000 + 1300 },
           now + 1000 + 1300,
           [Act.stopCutter, Act.delayMs 1000, Act.runBackward cfg.FULLSPEED,
             Act.delayMs 1300, Act.turnRight 70, Act.stop,
             Act.runForward cfg.FULLSPEED])
       else
         dockingTail cfg env g1 (now + 1000 + 1300)
           [Act.stopCutter, Act.delayMs 1000, Act.runBackward cfg.FULLSPEED,
             Act.delayMs 1300]) := by
  simp only [doDocking, hc1, hov, hc2, Bool.false_eq_true, if_false, if_true]
  by_cases hs : g.sensorOutside ORIENTATION_LEFT = true <;>
    by_cases hg : now - g.lastCollision > 10000 <;>
      simp [hs, hg]

/-- The docking tail never emits the 70-degree escape turn (its only turns
are the 20-degree right-sensor correction and the 30-degree exit turn). -/
lemma dockingTail_no_turnRight70 (cfg : Config) (env : Env) (g : Globals)
    (now : Nat) (acts : List Act) (h : Act.turnRight 70 ∉ acts) :
    Act.turnRight 70 ∉ (dockingTail cfg env g now acts).2.2 := by
  simp only [dockingTail]
  split_ifs <;> simp [List.mem_append, h]

/-- The poll phase does not change the mower state. -/
lemma pollPhase_state (env : Env) (g : Globals) (now : Nat) :
    (pollPhase env g now).1.state = g.state := by
  simp only [pollPhase]
  split_ifs <;> rfl

/-- The poll phase does not advance time. -/
lemma pollPhase_now (env : Env) (g : Globals) (now : Nat) :
    (pollPhase env g now).2.1 = now := by
  simp only [pollPhase]
  split_ifs <;> rfl

/-- The trace of the poll phase: the two coil reads, the battery-voltage
update, and possibly a display refresh. -/
lemma pollPhase_trace (env : Env) (g : Globals) (now : Nat) :
    (pollPhase env g now).2.2 =
      [Act.sensorSelect 0, Act.readIsOutOfBounds 0 (env.isOutOfBounds now 0),
        Act.sensorSelect 1, Act.readIsOutOfBounds 1 (env.isOutOfBounds now 1),
        Act.batteryUpdateVoltage]
        ++ (if now - g.lastDisplayUpdate > 5000 then [Act.displayUpdate] else []) := by
  simp only [pollPhase]
  split_ifs with h <;> simp [h]

/-- Nothing the poll phase emits is a motor, cutter or error command — in
particular no forward-motion command, no `startCutter` and no `stopCutter`. -/
lemma pollPhase_mem_props (env : Env) (g : Globals) (now : Nat) :
    ∀ a ∈ (pollPhase env g now).2.2,
      isCommandAct a = false ∧ isForwardMotionAct a = false ∧
        a ≠ Act.startCutter ∧ a ≠ Act.stopCutter := by
  intro a ha
  rw [pollPhase_trace] at ha
  revert ha
  split_ifs <;> intro ha <;> fin_cases ha <;>
    exact ⟨rfl, rfl, fun h => Act.noConfusion h, fun h => Act.noConfusion h⟩

/-- C7: at boot, `CutterMotor.initialize()` is the very first action of
`setup`, before any other subsystem configures pins or levels (`Liam.ino`
lines 130-132: it is the first statement, commented "Turn off the cutter
motor as fast as possible"). -/
theorem C7_cutter_off_first_at_boot (cfg : Config) (env : Env) :
    ((setup cfg env).2.2).head? = some Act.cutterInit := by
  simp only [setup]
  split_ifs <;> rfl

/-- C9: in any cycle where the debug collaborator returns `SETUP_DEBUG`, the
loop returns immediately: the state is set to `SETUP_DEBUG`, every other
global (including the `sensorOutside` snapshot and all timers) is untouched,
time does not advance, and the trace holds nothing but the debug call — no
boundary poll, no battery update, no display update, no safety check, no
state handler. -/
theorem C9_setup_debug_preempts_cycle (cfg : Config) (env : Env) (g : Globals)
    (now : Nat) (hdbg : env.debugResult now g.state = MowerState.SETUP_DEBUG) :
    loopCycle cfg env g now =
      ({ g with state := MowerState.SETUP_DEBUG }, now, [Act.tryEnterSetupDebug]) := by
  unfold loopCycle
  rw [hdbg]
  simp

/-- C9 witness: a concrete cycle in which the debug console reports
`SETUP_DEBUG` from `MOWING`. -/
theorem C9_setup_debug_preempts_cycle_witness :
    loopCycle cfg0 { env0 with debugResult := fun _ _ => MowerState.SETUP_DEBUG }
        { initialGlobals with state := MowerState.MOWING } 6000 =
      ({ initialGlobals with state := MowerState.SETUP_DEBUG }, 6000,
        [Act.tryEnterSetupDebug]) :=
  C9_setup_debug_preempts_cycle cfg0
    { env0 with debugResult := fun _ _ => MowerState.SETUP_DEBUG }
    { initialGlobals with state := MowerState.MOWING } 6000 rfl

/-- C5: in the `LookingForBoundary` handler, a left-coil snapshot of
`Outside` switches the state to `DOCKING` in that same call, and the whole
handler trace is just the cutter stop — in particular no forward-motion
command (no random turn, no ramp, no obstacle turn) is issued. -/
theorem C5_left_outside_starts_docking (cfg : Config) (env : Env)
    (g : Globals) (now : Nat) (hout : g.sensorOutsideLeft = true) :
    doLookForBWF cfg env g now =
      ({ g with state := MowerState.DOCKING }, now, [Act.stopCutter]) := by
  unfold doLookForBWF
  simp [Globals.sensorOutside, ORIENTATION_LEFT, hout]

/-- C5 witness: the concrete handler call with the left coil outside. -/
theorem C5_left_outside_starts_docking_witness :
    doLookForBWF cfg0 env0
        { initialGlobals with
          state := MowerState.LOOKING_FOR_BWF
          sensorOutsideLeft := true } 7000 =
      ({ initialGlobals with
          state := MowerState.DOCKING
          sensorOutsideLeft := true }, 7000, [Act.stopCutter]) :=
  C5_left_outside_starts_docking cfg0 env0
    { initialGlobals with
      state := MowerState.LOOKING_FOR_BWF
      sensorOutsideLeft := true } 7000 rfl

/-- C4: in every `doDocking` call in which `Battery.isBeingCharged()` is
observed true — at the top of the handler or at the post-collision re-check
one second later — the state becomes `CHARGING` and the last command of the
handler is `Mower.stop()`, whatever the pending collision count. -/
theorem C4_charge_contact_wins_docking (cfg : Config) (env : Env)
    (g : Globals) (now : Nat)
    (hobs : env.isBeingCharged now = true ∨
      (env.isBeingCharged now = false ∧ env.wheelsAreOverloaded now = true ∧
        env.isBeingCharged (now + 1000) = true)) :
    (doDocking cfg env g now).1.state = MowerState.CHARGING ∧
      ((doDocking cfg env g now).2.2).getLast? = some Act.stop := by
  unfold doDocking
  rcases hobs with h | ⟨h1, h2, h3⟩
  · simp [h]
  · simp [h1, h2, h3]

/-- C4 witness: charger contact appears at the 1s re-check of a pending
third collision. -/
theorem C4_charge_contact_wins_docking_witness :
    (doDocking cfg0 envC4 gC4 8000).1.state = MowerState.CHARGING ∧
      ((doDocking cfg0 envC4 gC4 8000).2.2).getLast? = some Act.stop :=
  C4_charge_contact_wins_docking cfg0 envC4 gC4 8000
    (Or.inr ⟨by decide, rfl, by decide⟩)

/-- C1: in every cycle that reaches state dispatch (the debug console did not
take over), the safety checks run between the sensor poll and the state
handler, and when tilt is detected the cycle's trace decomposes as the debug
probe, the (command-free) poll phase, then immediately `stopCutter`,
`stop` (both wheel motors) and `Error.flag(ERROR_TILT)`, then the lift check
and only then the state handler; consequently the first three motor/cutter/
error commands of the cycle are exactly that stop-and-flag sequence. -/
theorem C1_tilt_stops_all_before_dispatch (cfg : Config) (env : Env)
    (g : Globals) (now : Nat)
    (hdbg : env.debugResult now g.state ≠ MowerState.SETUP_DEBUG)
    (htilt : cfg.tiltCheckCompiled = true) (hflip : env.hasFlipped now = true) :
    ((loopCycle cfg env g now).2.2 =
      Act.tryEnterSetupDebug ::
        ((pollPhase env { g with state := env.debugResult now g.state } now).2.2
          ++ [Act.stopCutter, Act.stop, Act.errorFlag cfg.ERROR_TILT]
          ++ (checkIfLifted cfg env
              (pollPhase env { g with state := env.debugResult now g.state } now).1
              now).2.2
          ++ (dispatchState cfg env
              (checkIfLifted cfg env
                (pollPhase env { g with state := env.debugResult now g.state } now).1
                now).1
              (checkIfLifted cfg env
                (pollPhase env { g with state := env.debugResult now g.state } now).1
                now).2.1).2.2)) ∧
    ((loopCycle cfg env g now).2.2.filter isCommandAct).take 3 =
      [Act.stopCutter, Act.stop, Act.errorFlag cfg.ERROR_TILT] := by
  have hEq : (loopCycle cfg env g now).2.2 =
      Act.tryEnterSetupDebug ::
        ((pollPhase env { g with state := env.debugResult now g.state } now).2.2
          ++ [Act.stopCutter, Act.stop, Act.errorFlag cfg.ERROR_TILT]
          ++ (checkIfLifted cfg env
              (pollPhase env { g with state := env.debugResult now g.state } now).1
              now).2.2
          ++ (dispatchState cfg env
              (checkIfLifted cfg env
                (pollPhase env { g with state := env.debugResult now g.state } now).1
                now).1
              (checkIfLifted cfg env
                (pollPhase env { g with state := env.debugResult now g.state } now).1
                now).2.1).2.2) := by
    simp only [loopCycle]
    rw [if_neg hdbg]
    simp only [pollPhase, checkIfFlipped, htilt, hflip, Bool.true_and, if_pos]
    split_ifs <;> simp
  refine ⟨hEq, ?_⟩
  rw [hEq]
  simp only [pollPhase]
  split_ifs <;> simp [isCommandAct]

/-- C1 witness: a mowing cycle with the tilt sensor compiled in and the mower
flipped. -/
theorem C1_tilt_stops_all_before_dispatch_witness :
    (((loopCycle cfg0 { env0 with hasFlipped := fun _ => true }
        { initialGlobals with state := MowerState.MOWING } 6000).2.2).filter
      isCommandAct).take 3 =
      [Act.stopCutter, Act.stop, Act.errorFlag cfg0.ERROR_TILT] :=
  (C1_tilt_stops_all_before_dispatch cfg0 { env0 with hasFlipped := fun _ => true }
    { initialGlobals with state := MowerState.MOWING } 6000
    (by decide) rfl rfl).2

/-- C2 counterexample: in the very cycle in which `doMowing` observes
`mustCharge()`, the state does become `LOOKING_FOR_BWF` but no
`Mower.stopCutter()` command is issued anywhere in that cycle — `doMowing`
returns before reaching any cutter command, and the cutter stop only happens
in the next cycle's `doLookForBWF` (`Liam.ino` lines 230-234 versus 389). -/
theorem C2_cutter_not_stopped_same_cycle :
    (loopCycle cfg0 envC2 gC2 6000).1.state = MowerState.LOOKING_FOR_BWF ∧
      Act.stopCutter ∉ (loopCycle cfg0 envC2 gC2 6000).2.2 := by decide

/-- C2 (amended): when the battery reports `mustCharge()` during a `Mowing`
cycle, the state becomes `LOOKING_FOR_BWF` in that same cycle and no forward
motion or cutter-on command is issued afterwards in that cycle; the cutter
motor is not stopped in that cycle — it is stopped as the first command of
the `LookingForBoundary` handler on the next cycle. -/
theorem C2_must_charge_to_lfb_cutter_next_cycle (cfg : Config) (env : Env)
    (g : Globals) (now : Nat) (hst : g.state = MowerState.MOWING)
    (hdbg : env.debugResult now MowerState.MOWING = MowerState.MOWING)
    (hmc : env.mustCharge now = true)
    (htilt : (cfg.tiltCheckCompiled && env.hasFlipped now) = false)
    (hlift : (cfg.liftCheckCompiled && env.isLifted now) = false) :
    (loopCycle cfg env g now).1.state = MowerState.LOOKING_FOR_BWF ∧
      (∀ a ∈ (loopCycle cfg env g now).2.2,
        isForwardMotionAct a = false ∧ a ≠ Act.startCutter) ∧
      Act.stopCutter ∉ (loopCycle cfg env g now).2.2 ∧
      (∀ env' g' now',
        ((doLookForBWF cfg env' g' now').2.2).head? = some Act.stopCutter) := by
  have hlook : ∀ env' g' now',
      ((doLookForBWF cfg env' g' now').2.2).head? = some Act.stopCutter := by
    intro env' g' now'
    unfold doLookForBWF
    split_ifs <;> simp
  have hne : env.debugResult now g.state ≠ MowerState.SETUP_DEBUG := by
    rw [hst, hdbg]
    exact fun h => MowerState.noConfusion h
  have hcycle : loopCycle cfg env g now =
      ({ (pollPhase env { g with state := env.debugResult now g.state } now).1
          with state := MowerState.LOOKING_FOR_BWF }, now,
        Act.tryEnterSetupDebug ::
          (pollPhase env { g with state := env.debugResult now g.state } now).2.2) := by
    simp only [loopCycle]
    rw [if_neg hne]
    simp only [checkIfFlipped, checkIfLifted, htilt, hlift, Bool.false_eq_true,
      if_false, dispatchState, pollPhase_state, hst, hdbg, pollPhase_now,
      doMowing, hmc, if_pos, List.append_nil, List.singleton_append]
  rw [hcycle]
  refine ⟨rfl, ?_, ?_, hlook⟩
  · intro a ha
    rw [List.mem_cons] at ha
    rcases ha with rfl | h
    · exact ⟨rfl, fun h => Act.noConfusion h⟩
    · have hp := pollPhase_mem_props env _ now a h
      exact ⟨hp.2.1, hp.2.2.1⟩
  · intro hmem
    rw [List.mem_cons] at hmem
    rcases hmem with h | h
    · exact Act.noConfusion h
    · exact (pollPhase_mem_props env _ now _ h).2.2.2 rfl

/-- C2 witness for the amended claim: the concrete mustCharge cycle of the
counterexample. -/
theorem C2_must_charge_to_lfb_cutter_next_cycle_witness :
    (loopCycle cfg0 envC2 gC2 6000).1.state = MowerState.LOOKING_FOR_BWF ∧
      (∀ a ∈ (loopCycle cfg0 envC2 gC2 6000).2.2,
        isForwardMotionAct a = false ∧ a ≠ Act.startCutter) ∧
      Act.stopCutter ∉ (loopCycle cfg0 envC2 gC2 6000).2.2 ∧
      (∀ env' g' now',
        ((doLookForBWF cfg0 env' g' now').2.2).head? = some Act.stopCutter) :=
  C2_must_charge_to_lfb_cutter_next_cycle cfg0 envC2 gC2 6000 rfl rfl rfl
    (by decide) (by decide)

/-- C3: in `doDocking`, when a collision is handled (wheels overloaded, no
charger contact at either check), a quiet gap of more than 10s since the last
collision resets the counter, so the new collision counts as the first and
no escape turn fires; within the 10s window, a pending count of exactly 2
(so this is the 3rd consecutive collision) takes the escape-turn branch —
nudge back, 70-degree right turn, counter reset to 0, run forward — while
any other pending count just increments the counter and never emits the
70-degree escape turn. -/
theorem C3_third_collision_escapes (cfg : Config) (env : Env) (g : Globals)
    (now : Nat)
    (hc1 : env.isBeingCharged now = false)
    (hov : env.wheelsAreOverloaded now = true)
    (hc2 : env.isBeingCharged (now + 1000) = false) :
    (now - g.lastCollision > 10000 →
      (doDocking cfg env g now).1.collisionCount = 1 ∧
        Act.turnRight 70 ∉ (doDocking cfg env g now).2.2) ∧
    (¬(now - g.lastCollision > 10000) →
      (g.collisionCount = 2 →
        (doDocking cfg env g now).1.collisionCount = 0 ∧
          (doDocking cfg env g now).2.2 =
            [Act.stopCutter, Act.delayMs 1000, Act.runBackward cfg.FULLSPEED,
              Act.delayMs 1300, Act.turnRight 70, Act.stop,
              Act.runForward cfg.FULLSPEED]) ∧
      (g.collisionCount ≠ 2 →
        (doDocking cfg env g now).1.collisionCount = g.collisionCount + 1 ∧
          Act.turnRight 70 ∉ (doDocking cfg env g now).2.2)) := by
  have hTail70 : ∀ (g' : Globals) (now' : Nat),
      Act.turnRight 70 ∉ (dockingTail cfg env g' now'
        [Act.stopCutter, Act.delayMs 1000, Act.runBackward cfg.FULLSPEED,
          Act.delayMs 1300]).2.2 := by
    intro g' now'
    exact dockingTail_no_turnRight70 cfg env g' now' _ (by simp)
  rw [doDocking_collision_eq cfg env g now hc1 hov hc2]
  constructor
  · intro hgap
    simp only [if_pos hgap]
    rw [if_neg (by omega : ¬(0 + 1 = 3))]
    rw [dockingTail_collisionCount]
    exact ⟨rfl, hTail70 _ _⟩
  · intro hgap
    simp only [if_neg hgap]
    constructor
    · intro hcc
      rw [if_pos (by omega : g.collisionCount + 1 = 3)]
      exact ⟨rfl, rfl⟩
    · intro hcc
      rw [if_neg (by omega : ¬(g.collisionCount + 1 = 3))]
      rw [dockingTail_collisionCount]
      exact ⟨rfl, hTail70 _ _⟩

/-- C3 witness: a third collision 2s after the second, inside the 10s
window, takes the escape branch. -/
theorem C3_third_collision_escapes_witness :
    (doDocking cfg0 envDock gDock 8000).2.2 =
      [Act.stopCutter, Act.delayMs 1000, Act.runBackward cfg0.FULLSPEED,
        Act.delayMs 1300, Act.turnRight 70, Act.stop,
        Act.runForward cfg0.FULLSPEED] :=
  (((C3_third_collision_escapes cfg0 envDock gDock 8000 rfl rfl rfl).2
      (by decide)).1 rfl).2

/-- C10: when the third-collision escape branch of `doDocking` runs, the
collision counter is reset to 0, `lastOutside` is refreshed to the current
time (after the 1s and 1.3s delays), the state is left unchanged — so the
10-second boundary-lost transition to `LOOKING_FOR_BWF` cannot fire in that
cycle (no `turnLeft 30` is emitted either) — and the handler's final command
resumes full-speed forward motion. -/
theorem C10_escape_resets_and_runs_forward (cfg : Config) (env : Env)
    (g : Globals) (now : Nat)
    (hc1 : env.isBeingCharged now = false)
    (hov : env.wheelsAreOverloaded now = true)
    (hc2 : env.isBeingCharged (now + 1000) = false)
    (hgap : ¬(now - g.lastCollision > 10000))
    (hcc : g.collisionCount = 2) :
    (doDocking cfg env g now).1.collisionCount = 0 ∧
      (doDocking cfg env g now).1.lastOutside = now + 1000 + 1300 ∧
      (doDocking cfg env g now).1.state = g.state ∧
      ((doDocking cfg env g now).2.2).getLast? =
        some (Act.runForward cfg.FULLSPEED) ∧
      Act.turnLeft 30 ∉ (doDocking cfg env g now).2.2 := by
  rw [doDocking_collision_eq cfg env g now hc1 hov hc2]
  simp only [if_neg hgap]
  rw [if_pos (by omega : g.collisionCount + 1 = 3)]
  refine ⟨rfl, rfl, ?_, rfl, by simp⟩
  split_ifs <;> rfl

/-- C10 witness: the concrete escape branch of the C3 witness. -/
theorem C10_escape_resets_and_runs_forward_witness :
    (doDocking cfg0 envDock gDock 8000).1.collisionCount = 0 ∧
      (doDocking cfg0 envDock gDock 8000).1.lastOutside = 8000 + 1000 + 1300 ∧
      (doDocking cfg0 envDock gDock 8000).1.state = gDock.state ∧
      ((doDocking cfg0 envDock gDock 8000).2.2).getLast? =
        some (Act.runForward cfg0.FULLSPEED) ∧
      Act.turnLeft 30 ∉ (doDocking cfg0 envDock gDock 8000).2.2 :=
  C10_escape_resets_and_runs_forward cfg0 envDock gDock 8000 rfl rfl rfl
    (by decide) rfl

/-- C6 (code bug): the `&& Clock.timeToCut()` conjunct of `doCharging`
(`Liam.ino` line 429) sits under `#if defined __RTC__CLOCK__` (line 428),
while the `CLOCK Clock` collaborator itself is constructed under
`#if defined __RTC_CLOCK__` (line 116) — two different macros.  In a build
where the clock collaborator is present (`__RTC_CLOCK__` defined) and only
that macro is defined, the gate is not compiled: with the battery fully
charged, a boundary signal present and `timeToCut()` false, `doCharging`
still transitions to `LAUNCHING`. -/
theorem C6_clock_gate_macro_typo :
    cfgC6.RTC_CLOCK_defined = true ∧ cfgC6.RTC__CLOCK_defined = false ∧
      envC6.timeToCut 1000 = false ∧
      (doCharging cfgC6 envC6 gC6 1000).1.state = MowerState.LAUNCHING := by
  decide

/-- C8 counterexample: the elapsed-time state is not private to one handler
and is not reset on state entry.  Concretely: (1) a `doMowing` call at time
30000 performs its periodic random turn and writes 32000 into the global
`time_at_turning`; (2) the `mustCharge` transition into `LOOKING_FOR_BWF`
carries every timer unchanged (nothing is reset on entry); and (3) the
`doLookForBWF` handler's behavior then depends on that carried value — with
`time_at_turning = 32000` it drives straight, with a stale 0 it immediately
random-turns — so the timer is shared across the Mowing and
LookingForBoundary states, contradicting the claim. -/
theorem C8_turn_timer_shared_across_states :
    (doMowing cfg0 env0 gC2 30000).1.time_at_turning = 32000 ∧
      (doMowing cfg0 envC2 gMowCarried 40000).1 =
        { gMowCarried with state := MowerState.LOOKING_FOR_BWF } ∧
      (doLookForBWF cfg0 env0 gLfbCarried 33000).2.2 ≠
        (doLookForBWF cfg0 env0 gLfbStale 33000).2.2 := by
  decide

/-- C8 (amended): the elapsed-time state is not owned per state and is never
reset on a transition: `time_at_turning` is one global shared by the
`Mowing` and `LookingForBoundary` handlers (and `randomTurn`), and the
`Docking` timers are function-`static` locals that persist across visits.
In particular the `mustCharge` transition out of `Mowing` carries every
global (all timers included) unchanged, and `doDocking` never resets the
global turn timer that `doLookForBWF` will read after a
`Docking → LOOKING_FOR_BWF` transition. -/
theorem C8_timers_carried_across_transitions (cfg : Config) (env : Env)
    (g : Globals) (now : Nat) (hmc : env.mustCharge now = true) :
    doMowing cfg env g now =
        ({ g with state := MowerState.LOOKING_FOR_BWF }, now, []) ∧
      (∀ env' g' now', (doDocking cfg env' g' now').1.time_at_turning =
        g'.time_at_turning) := by
  constructor
  · simp [doMowing, hmc]
  · intro env' g' now'
    by_cases hs : g'.sensorOutside ORIENTATION_LEFT = true <;>
      simp only [doDocking, hs, Bool.false_eq_true, if_true, if_false] <;>
        split_ifs <;>
          first
            | rfl
            | rw [dockingTail_time_at_turning]

/-- C8 witness for the amended claim: the concrete mustCharge transition of
the C2 scenario. -/
theorem C8_timers_carried_across_transitions_witness :
    doMowing cfg0 envC2 gC2 6000 =
        ({ gC2 with state := MowerState.LOOKING_FOR_BWF }, 6000, []) ∧
      (∀ env' g' now', (doDocking cfg0 env' g' now').1.time_at_turning =
        g'.time_at_turning) :=
  C8_timers_carried_across_transitions cfg0 envC2 gC2 6000 rfl

end Liam
